import Mathlib

/-!
Verification development for the HN daily digest generator
(source: src/hn_digest.py).  The Python program is shallowly embedded:
JSON items from the two upstream services become structures with
optional fields, network effects become function parameters supplying
the outcome of each request, and the nondeterministic completion order
of the concurrent comment fetches becomes an explicit list parameter.
Machine/float issues do not arise: all timestamps are integers.
-/

namespace HNDigest

/-- Configuration constant MAX_POSTS from the source (N). -/
def MAX_POSTS : Nat := 10

/-- Configuration constant MAX_COMMENTS from the source (K). -/
def MAX_COMMENTS : Nat := 5

/-!
## Data model

A Firebase item (item lookup response).  The JSON object has optional
fields; `none` models an absent key.  `deleted`/`dead` model the
optional booleans, absent meaning false (Python falsy `.get`).
A failed or null lookup is modelled as `Option Item = none`.
The field named `by` in the JSON is called `by_` here because `by` is
a keyword in Lean.
-/

structure Item where
  id : Option Nat
  type : Option String
  by_ : Option String
  time : Option Nat
  text : Option String
  kids : List Nat
  deleted : Bool
  dead : Bool
deriving DecidableEq

/-- An Algolia discovery hit, as collected by find_top_posts_yesterday:
id, title, optional url, optional story_text, points, num_comments,
author, created_at.  The numeric object identifier is kept as a Nat
(the source stores the decimal string and converts with int). -/
structure Post where
  id : Nat
  title : String
  url : Option String
  story_text : Option String
  points : Nat
  num_comments : Nat
  author : String
  created_at : String
deriving DecidableEq

/-- Result of fetch_article: a dict with key content_html. -/
structure Article where
  content_html : String
deriving DecidableEq

/-!
## Retry-wrapped fetch client (_request_with_retry, lines 418-428)

One attempt of requests.get either raises a connection/timeout style
exception before any response exists, or yields a response with a
status code.  resp.raise_for_status raises HTTPError exactly when
400 <= status < 600; any of these exceptions is a RequestException
caught by the loop.
-/

inductive Attempt where
  | resp (status : Nat)
  | exc
deriving DecidableEq

inductive ReqError where
  | connError
  | httpError (status : Nat)
deriving DecidableEq

/-- requests raise_for_status: raises exactly for 4xx and 5xx codes. -/
def raises_for_status (s : Nat) : Bool :=
  decide (400 ≤ s) && decide (s < 600)

/-- The retry loop body: `attempt` is the current 0-based index,
`fuel` the number of loop iterations still to run (initially
`retries`).  When the attempt fails and it is the last one
(`fuel = 1`), the exception propagates; otherwise the loop sleeps and
continues.  A run with zero iterations falls off the loop and returns
the Python None, modelled as `.ok none`. -/
def request_attempts (f : Nat → Attempt) : Nat → Nat → Except ReqError (Option Nat)
  | _, 0 => .ok none
  | attempt, fuel + 1 =>
    match f attempt with
    | .resp s =>
      if raises_for_status s then
        if fuel = 0 then .error (.httpError s)
        else request_attempts f (attempt + 1) fuel
      else .ok (some s)
    | .exc =>
      if fuel = 0 then .error .connError
      else request_attempts f (attempt + 1) fuel

/-- _request_with_retry: GET with linear backoff retries (the sleep has
no observable effect in this embedding).  `f` gives the outcome of the
i-th attempt. -/
def request_with_retry (f : Nat → Attempt) (retries : Nat) : Except ReqError (Option Nat) :=
  request_attempts f 0 retries

/-- Whether one attempt outcome is accepted by the loop (a response
that raise_for_status does not reject). -/
def attempt_ok : Attempt → Bool
  | .resp s => ! raises_for_status s
  | .exc => false

/-!
## Discovery window (find_top_posts_yesterday, lines 436-452)

Timestamps are UTC epoch seconds as Int.  `now.replace(hour=0, ...)`
truncates to the most recent UTC midnight; on epoch seconds that is
`now - now % 86400` (Python % and Lean Int % agree: both yield a
nonnegative remainder for a positive divisor).
-/

/-- The queried interval: start = most recent UTC midnight minus one
day, end = most recent UTC midnight. -/
def yesterday_window (now : Int) : Int × Int :=
  let midnight := now - now % 86400
  (midnight - 86400, midnight)

/-- The Algolia numericFilters clause from the source is
`created_at_i>start,created_at_i<end`: both comparisons are strict. -/
def query_accepts (startTs endTs ts : Int) : Bool :=
  decide (startTs < ts) && decide (ts < endTs)

/-- find_top_posts_yesterday keeps at most `limit` hits
(`data["hits"][:limit]`). -/
def find_top_posts (hits : List Post) (limit : Nat) : List Post :=
  hits.take limit

/-!
## Article extractor (fetch_article, lines 480-510)

The network fetch and the readability reduction are supplied as
function parameters (`net` for requests.get plus raise_for_status,
`rdr` for Document(...).summary()); either may fail, which the source
converts to returning None.  The parsed summary fragment is modelled
as a flat list of elements, each with a tag, an optional src attribute
and opaque inner text; this is the granularity at which the source
manipulates the soup (decompose by tag name, rewrite img src).

The img loop of lines 505-508 calls urllib.parse.urljoin OUTSIDE both
try blocks of the function (the handlers end at line 500), and urljoin
raises ValueError on a network-path reference with an unmatched
bracket (the Invalid IPv6 URL check in urlsplit), so fetch_article can
raise; its embedding is therefore Except-valued, with `.error` for an
escaping exception, `.ok none` for the returned Python None, and
`.ok (some a)` for an extracted article.

urljoin is modelled after the CPython implementation (urlsplit, the
netloc bracket validation, uses_relative/uses_netloc dispatch, the
RFC 3986 style segment resolution with dot segments, and urlunsplit
reassembly); parameter strings (the ;-suffix of the last path
segment) are not split off, which is inconsequential for the URL
shapes an img src can take here.
-/

structure Elem where
  tag : String
  src : Option String
  text : String
deriving DecidableEq

/-- Python str.startswith, at the character level. -/
def str_starts (s pre : String) : Bool :=
  pre.data.isPrefixOf s.data

/-- ASCII lowercase fold (urlsplit lowercases the scheme). -/
def lower_char (c : Char) : Char :=
  if 'A' ≤ c ∧ c ≤ 'Z' then Char.ofNat (c.toNat + 32) else c

/-- The characters urlsplit accepts inside a scheme. -/
def scheme_char (c : Char) : Bool :=
  c.isAlpha || c.isDigit || c == '+' || c == '-' || c == '.'

/-- Split at the first colon: the prefix before it and, when a colon
exists, the remainder with the colon still at its head. -/
def take_until_colon : List Char → List Char × List Char
  | [] => ([], [])
  | c :: cs =>
    if c = ':' then ([], c :: cs)
    else
      let p := take_until_colon cs
      (c :: p.1, p.2)

/-- Split at the first occurrence of a character: the prefix and,
when the character occurs, the suffix after it. -/
def split_on_char (ch : Char) : List Char → List Char × Option (List Char)
  | [] => ([], none)
  | c :: cs =>
    if c = ch then ([], some cs)
    else
      let p := split_on_char ch cs
      (c :: p.1, p.2)

/-- The five urlsplit components; an absent query/fragment is the
empty string, exactly how truthiness treats them downstream. -/
structure UrlParts where
  scheme : String
  netloc : String
  path : String
  query : String
  fragment : String
deriving DecidableEq

/-- urllib.parse.urlsplit: scheme (lowercased, only when the prefix
before the first colon is alphabetic-led scheme characters, else the
supplied default), then the netloc after a leading double slash up to
the next slash/question mark/hash — raising ValueError when the
netloc has an unmatched square bracket (the Invalid IPv6 URL check) —
then the fragment after the first hash, then the query after the
first question mark. -/
def urlsplit (url : String) (defaultScheme : String) : Except Unit UrlParts :=
  let l := url.data
  let p := take_until_colon l
  let sr : String × List Char :=
    match p.2 with
    | ':' :: after =>
      if (match p.1 with
          | [] => false
          | c :: _ => c.isAlpha) && p.1.all scheme_char
      then (String.mk (p.1.map lower_char), after)
      else (defaultScheme, l)
    | _ => (defaultScheme, l)
  let rest := sr.2
  let nr : Option (List Char × List Char) :=
    if ['/', '/'].isPrefixOf rest then
      let after2 := rest.drop 2
      some (after2.takeWhile (fun c => ! (c == '/' || c == '?' || c == '#')),
            after2.dropWhile (fun c => ! (c == '/' || c == '?' || c == '#')))
    else none
  match nr with
  | some q =>
    if (q.1.contains '[') ≠ (q.1.contains ']') then .error ()
    else
      let fq := split_on_char '#' q.2
      let pq := split_on_char '?' fq.1
      .ok { scheme := sr.1, netloc := String.mk q.1, path := String.mk pq.1,
            query := String.mk ((pq.2).getD []), fragment := String.mk ((fq.2).getD []) }
  | none =>
    let fq := split_on_char '#' rest
    let pq := split_on_char '?' fq.1
    .ok { scheme := sr.1, netloc := "", path := String.mk pq.1,
          query := String.mk ((pq.2).getD []), fragment := String.mk ((fq.2).getD []) }

/-- The uses_relative scheme list of urllib.parse. -/
def uses_relative : List String :=
  ["", "ftp", "http", "gopher", "nntp", "imap", "wais", "file", "https", "shttp",
   "mms", "prospero", "rtsp", "rtspu", "sftp", "svn", "svn+ssh", "ws", "wss"]

/-- The uses_netloc scheme list of urllib.parse. -/
def uses_netloc : List String :=
  ["", "ftp", "http", "gopher", "nntp", "telnet", "imap", "wais", "file", "mms",
   "https", "shttp", "snews", "prospero", "rtsp", "rtspu", "rsync", "svn",
   "svn+ssh", "sftp", "nfs", "git", "git+ssh", "ws", "wss", "itms-services"]

/-- urllib.parse.urlunsplit. -/
def urlunsplit (p : UrlParts) : String :=
  let u1 := p.path
  let u2 :=
    if p.netloc ≠ "" ∨ str_starts u1 "//" = true then
      "//" ++ p.netloc ++ (if u1 ≠ "" ∧ str_starts u1 "/" = false then "/" ++ u1 else u1)
    else u1
  let u3 := if p.scheme ≠ "" then p.scheme ++ ":" ++ u2 else u2
  let u4 := if p.query ≠ "" then u3 ++ "?" ++ p.query else u3
  if p.fragment ≠ "" then u4 ++ "#" ++ p.fragment else u4

/-- Python str.split on the slash character. -/
def split_slashes : List Char → List String
  | [] => [""]
  | c :: cs =>
    if c = '/' then "" :: split_slashes cs
    else
      match split_slashes cs with
      | st :: ss => String.mk (c :: st.data) :: ss
      | [] => [String.mk [c]]

/-- filter(None, segments[1:-1]) on the tail of the segment list:
drop empty segments except the final one. -/
def keep_last_filter : List String → List String
  | [] => []
  | [x] => [x]
  | x :: xs => if x = "" then keep_last_filter xs else x :: keep_last_filter xs

/-- The urljoin resolution loop: pop on a dot-dot (ignoring underflow),
skip a dot, append anything else.  The accumulator is the resolved
path in reverse. -/
def resolve_segments : List String → List String → List String
  | acc, [] => acc.reverse
  | acc, seg :: rest =>
    if seg = ".." then resolve_segments (acc.drop 1) rest
    else if seg = "." then resolve_segments acc rest
    else resolve_segments (seg :: acc) rest

/-- urllib.parse.urljoin as called at line 508.  `.error` models the
ValueError that urlsplit raises on a netloc with an unmatched square
bracket — the Invalid IPv6 URL check, present in every CPython
version this program runs on.  CPython 3.11+ additionally rejects a
matched bracket pair whose contents are not an IP literal, a strictly
larger raising set not modelled here; the modelled raising set is
therefore a sound under-approximation on those versions. -/
def urljoin (base url : String) : Except Unit String := do
  if base = "" then return url
  if url = "" then return base
  let b ← urlsplit base ""
  let r ← urlsplit url b.scheme
  if r.scheme ≠ b.scheme ∨ uses_relative.contains r.scheme = false then
    return url
  if uses_netloc.contains r.scheme = true ∧ r.netloc ≠ "" then
    return urlunsplit r
  let netloc := if uses_netloc.contains r.scheme = true then b.netloc else r.netloc
  if r.path = "" then
    let q := if r.query = "" then b.query else r.query
    return urlunsplit { scheme := r.scheme, netloc := netloc, path := b.path,
                        query := q, fragment := r.fragment }
  let baseParts := split_slashes b.path.data
  let baseParts := if baseParts.getLast?.getD "" ≠ "" then baseParts.dropLast else baseParts
  let segments :=
    if str_starts r.path "/" then split_slashes r.path.data
    else
      match baseParts ++ split_slashes r.path.data with
      | [] => []
      | x :: xs => x :: keep_last_filter xs
  let resolved := resolve_segments [] segments
  let lastSeg := segments.getLast?.getD ""
  let resolved := if lastSeg = "." ∨ lastSeg = ".." then resolved ++ [""] else resolved
  let joined := String.intercalate "/" resolved
  return urlunsplit { scheme := r.scheme, netloc := netloc,
                      path := if joined = "" then "/" else joined,
                      query := r.query, fragment := r.fragment }

/-- The per-image src rewrite, lines 505-508: `src = img.get("src")`;
rewrite only `if src and not src.startswith(("http://", "https://",
"data:"))` — an absent or empty src is left alone, and a ValueError
from urljoin propagates. -/
def rewrite_img_src (pageUrl : String) (src : Option String) : Except Unit (Option String) :=
  match src with
  | none => .ok none
  | some s =>
    if s ≠ "" && ! (str_starts s "http://" || str_starts s "https://" || str_starts s "data:")
    then (urljoin pageUrl s).map some
    else .ok (some s)

/-- Lines 503-508: decompose every script/style/iframe element, then
rewrite each image source; the first raising rewrite aborts the
loop. -/
def sanitize_fragment (pageUrl : String) (frag : List Elem) : Except Unit (List Elem) :=
  (frag.filter (fun e => ! (e.tag == "script" || e.tag == "style" || e.tag == "iframe"))).mapM
    (fun e =>
      if e.tag == "img" then (rewrite_img_src pageUrl e.src).map (fun s => { e with src := s })
      else .ok e)

/-- Serialization of the sanitized soup back to a string (str(soup)). -/
def serialize_elem (e : Elem) : String :=
  "<" ++ e.tag
    ++ (match e.src with
        | some s => " src=\"" ++ s ++ "\""
        | none => "")
    ++ ">" ++ e.text ++ "</" ++ e.tag ++ ">"

def serialize_fragment (frag : List Elem) : String :=
  String.join (frag.map serialize_elem)

/-- fetch_article: `.ok none` when the url is absent or falsy, when
the GET raises (including raise_for_status), or when readability
raises — those paths are inside handlers; the sanitize loop is not,
so its ValueError escapes as `.error`. -/
def fetch_article (url : Option String) (net : String → Except Unit String)
    (rdr : String → Except Unit (List Elem)) : Except Unit (Option Article) :=
  match url with
  | none => .ok none
  | some u =>
    if u = "" then .ok none
    else
      match net u with
      | .error _ => .ok none
      | .ok text =>
        match rdr text with
        | .error _ => .ok none
        | .ok frag => (sanitize_fragment u frag).map (fun f => some (Article.mk (serialize_fragment f)))

/-!
## Comment aggregator (fetch_item / fetch_top_comments, lines 518-561)

fetch_item returns the decoded item or None on a request failure; it
is modelled as `fetch : Nat → Option Item`.  The candidate batch is
fetched by a thread pool and collected in as_completed order, an
arbitrary permutation of the batch; that completion order is the
explicit `order` parameter (in any real execution it is a permutation
of `kids.take (limit + 10)`).

The sort key is `(-len(kids), position_map.get(id, 999))`; building
position_map with a dict comprehension keeps the last index for a
duplicated kid id, and reading `c["id"]` raises KeyError when the
item has no id field.  CPython list.sort computes the key of every
element before comparing, so one id-less comment in the collected
list makes fetch_top_comments raise, modelled as `.error ()`.
Python list.sort is a stable sort; `sort_by` below is a stable
insertion sort (a new element is placed after every already placed
element that compares less-or-equal to it), and any two stable sorts
under the same total preorder agree, so the embedding is faithful to
timsort without reproducing its internals.
-/

/-- Insert x into a sorted list, after all elements le-below-or-equal
to it (the placement that makes the overall sort stable). -/
def insert_le {α : Type} (le : α → α → Bool) (x : α) : List α → List α
  | [] => [x]
  | y :: ys => if le y x then y :: insert_le le x ys else x :: y :: ys

/-- Stable insertion sort processing the input left to right. -/
def sort_by {α : Type} (le : α → α → Bool) (l : List α) : List α :=
  l.foldl (fun acc x => insert_le le x acc) []

/-- The filter of line 543-550: item truthy, type comment, not
deleted, not dead. -/
def good_comment (c : Item) : Bool :=
  c.type == some "comment" && ! c.deleted && ! c.dead

/-- Collection of the concurrent fetch results in completion order. -/
def collect_comments (fetch : Nat → Option Item) (order : List Nat) : List Item :=
  order.filterMap (fun cid =>
    match fetch cid with
    | some item => if good_comment item then some item else none
    | none => none)

/-- position_map.get(cid, 999) with last-index-wins dict semantics. -/
def pos_index (kid_ids : List Nat) (cid : Nat) : Nat :=
  (((List.range kid_ids.length).zip kid_ids).foldl
    (fun acc p => if p.2 == cid then p.1 else acc) 999)

/-- The sort key of lines 554-559. -/
def comment_key (kid_ids : List Nat) (c : Item) : Int × Nat :=
  (-(c.kids.length : Int), pos_index kid_ids (c.id.getD 0))

/-- Nondecreasing comparison of sort keys (ascending lexicographic on
(-replies, position), i.e. descending replies then ascending original
position). -/
def comment_le (kid_ids : List Nat) (a b : Item) : Bool :=
  decide ((comment_key kid_ids a).1 < (comment_key kid_ids b).1)
    || ((comment_key kid_ids a).1 == (comment_key kid_ids b).1
        && decide ((comment_key kid_ids a).2 ≤ (comment_key kid_ids b).2))

/-- fetch_top_comments.  `story?` is the fetch_item result for the
story root, `fetch` resolves each kid id, `order` is the completion
order of the pool, `limit` the requested count. -/
def fetch_top_comments (story? : Option Item) (fetch : Nat → Option Item)
    (order : List Nat) (limit : Nat) : Except Unit (List Item) :=
  match story? with
  | none => .ok []
  | some story =>
    match story.kids with
    | [] => .ok []
    | _ :: _ =>
      let comments := collect_comments fetch order
      if comments.all (fun c => c.id.isSome) then
        .ok ((sort_by (comment_le story.kids) comments).take limit)
      else
        .error ()

/-- The kid id list the sort key uses, for a possibly absent story. -/
def story_kids (story? : Option Item) : List Nat :=
  match story? with
  | none => []
  | some story => story.kids

/-!
## Rendering (render_section / generate_pdf, lines 569-653)

html.escape with quote=True, exactly the CPython replacement chain
(ampersand first, then the brackets, then the two quote characters).
-/

/-- One replacement pass of a single-character pattern, scanning left
to right (each html.escape pattern is one character, so str.replace
is exactly this pass). -/
def replace_char (c : Char) (repl : List Char) : List Char → List Char
  | [] => []
  | x :: xs => if x = c then repl ++ replace_char c repl xs else x :: replace_char c repl xs

def escape (s : String) : String :=
  String.mk (replace_char '\x27' ("&#x27;").data
    (replace_char '\"' ("&quot;").data
      (replace_char '>' ("&gt;").data
        (replace_char '<' ("&lt;").data
          (replace_char '&' ("&amp;").data s.data)))))

/-- Civil date from days since the Unix epoch (proleptic Gregorian,
the standard era-based algorithm; valid for all nonnegative epoch
days). -/
def civil_from_days (z0 : Nat) : Nat × Nat × Nat :=
  let z := z0 + 719468
  let era := z / 146097
  let doe := z % 146097
  let yoe := (doe - doe / 1460 + doe / 36524 - doe / 146096) / 365
  let doy := doe - (365 * yoe + yoe / 4 - yoe / 100)
  let mp := (5 * doy + 2) / 153
  let d := doy - (153 * mp + 2) / 5 + 1
  let m := if mp < 10 then mp + 3 else mp - 9
  (yoe + era * 400 + (if m ≤ 2 then 1 else 0), m, d)

def pad2 (n : Nat) : String :=
  if n < 10 then "0" ++ toString n else toString n

def pad4 (n : Nat) : String :=
  if n < 10 then "000" ++ toString n
  else if n < 100 then "00" ++ toString n
  else if n < 1000 then "0" ++ toString n
  else toString n

/-- strftime("%Y-%m-%d %H:%M UTC") on a UTC epoch-seconds value. -/
def format_time (t : Nat) : String :=
  let dt := civil_from_days (t / 86400)
  let secs := t % 86400
  pad4 dt.1 ++ "-" ++ pad2 dt.2.1 ++ "-" ++ pad2 dt.2.2 ++ " "
    ++ pad2 (secs / 3600) ++ ":" ++ pad2 (secs % 3600 / 60) ++ " UTC"

/-- COMMENT_TEMPLATE.format(author, time, reply_count, body). -/
def comment_fmt (author time : String) (reply_count : Nat) (body : String) : String :=
  "<div class=\"comment\">\n    <div class=\"comment-meta\">\n        <strong>"
    ++ author ++ "</strong> &middot; " ++ time ++ " &middot; "
    ++ toString reply_count ++ " replies\n    </div>\n    <div class=\"comment-body\">"
    ++ body ++ "</div>\n</div>\n"

/-- One comment block, lines 592-602: author escaped with [unknown]
default, body inserted verbatim with the em-deleted placeholder when
the text field is absent; reading c["time"] raises KeyError when the
field is missing. -/
def render_comment (c : Item) : Except Unit String :=
  match c.time with
  | none => .error ()
  | some t =>
    .ok (comment_fmt (escape (c.by_.getD "[unknown]")) (format_time t)
          c.kids.length (c.text.getD "<em>[deleted]</em>"))

/-- The article division content, lines 570-580: extracted article,
else truthy story_text, else the unavailable placeholder. -/
def article_section_of (post : Post) (article : Option Article) : String :=
  match article with
  | some a => "<div class=\"content\">" ++ a.content_html ++ "</div>"
  | none =>
    match post.story_text with
    | some s =>
      if s ≠ "" then "<div class=\"content\">" ++ s ++ "</div>"
      else "<div class=\"unavailable\">Article content could not be retrieved.</div>"
    | none => "<div class=\"unavailable\">Article content could not be retrieved.</div>"

/-- All ways to insert an element into a list (used to enumerate
completion orders of the fetch pool). -/
def insert_everywhere {α : Type} (x : α) : List α → List (List α)
  | [] => [[x]]
  | y :: ys => (x :: y :: ys) :: (insert_everywhere x ys).map (fun zs => y :: zs)

/-- All permutations of a list, structurally. -/
def all_orders {α : Type} : List α → List (List α)
  | [] => [[]]
  | x :: xs => (all_orders xs).flatMap (insert_everywhere x)

/-- The optional header link, lines 583-588 (url escaped, display text
truncated to 57 characters plus dots past length 60). -/
def url_link_of (post : Post) : String :=
  match post.url with
  | some u =>
    if u ≠ "" then
      let display := if u.length > 60 then u.take 57 ++ "..." else u
      " | <a href=\"" ++ escape u ++ "\">" ++ escape display ++ "</a>"
    else ""
  | none => ""

/-- SECTION_TEMPLATE.format(...), lines 339-365 and 604-616; only the
style block of the document is elided as presentation. -/
def section_fmt (rank total : Nat) (title : String) (points : Nat) (author : String)
    (num_comments : Nat) (story_id : Nat) (url_link article_section : String)
    (comment_count : Nat) (comments_html : String) : String :=
  "<div class=\"post-section\" id=\"post-" ++ toString rank ++ "\">\n"
    ++ "    <div class=\"post-card\">\n        <div class=\"post-card-header\">\n"
    ++ "            <div class=\"rank-badge\">#" ++ toString rank ++ " of " ++ toString total ++ "</div>\n"
    ++ "            <h1>" ++ title ++ "</h1>\n        </div>\n"
    ++ "        <div class=\"post-card-meta\">\n"
    ++ "            <span class=\"stat\"><span class=\"stat-value\">" ++ toString points ++ "</span> points</span>\n"
    ++ "            <span class=\"stat\"><span class=\"stat-value\">" ++ toString num_comments ++ "</span> comments</span>\n"
    ++ "            <span class=\"stat\">by <strong>" ++ author ++ "</strong></span>\n"
    ++ "            | <a href=\"https://news.ycombinator.com/item?id=" ++ toString story_id ++ "\">View on HN</a>\n"
    ++ "            " ++ url_link ++ "\n        </div>\n    </div>\n\n"
    ++ "    <div class=\"article\">\n        <h2>Article</h2>\n        " ++ article_section ++ "\n    </div>\n\n"
    ++ "    <div class=\"comments\">\n        <h2>Top " ++ toString comment_count ++ " Comments</h2>\n        "
    ++ comments_html ++ "\n    </div>\n</div>\n"

/-- render_section, lines 569-616.  The title and the two author
fields go through escape; the article/self-text body and each comment
body are inserted as returned upstream. -/
def render_section (post : Post) (article : Option Article) (comments : List Item)
    (rank total : Nat) : Except Unit String :=
  (comments.mapM render_comment).map (fun blocks =>
    section_fmt rank total (escape post.title) post.points (escape post.author)
      post.num_comments post.id (url_link_of post) (article_section_of post article)
      comments.length (String.intercalate "\n" blocks))

/-- TOC_ENTRY_TEMPLATE.format(...), lines 388-394 and 626-633. -/
def toc_entry (rank : Nat) (post : Post) : String :=
  "<div class=\"toc-item\">\n    <span class=\"toc-item-rank\">" ++ toString rank
    ++ "</span>\n    <span class=\"toc-item-title\"><a href=\"#post-" ++ toString rank
    ++ "\">" ++ escape post.title ++ "</a></span>\n    <div class=\"toc-item-meta\">"
    ++ toString post.points ++ " points &middot; " ++ toString post.num_comments
    ++ " comments &middot; by " ++ escape post.author ++ "</div>\n</div>\n"

/-- One digest entry, the tuple appended by the main loop. -/
def Entry : Type := Post × Option Article × List Item

/-- The section list built by the loop of lines 640-642, with ranks
enumerate(entries, start=1). -/
def render_entries (total : Nat) : Nat → List Entry → Except Unit (List String)
  | _, [] => .ok []
  | i, e :: es => do
    let s ← render_section e.1 e.2.1 e.2.2 (i + 1) total
    let rest ← render_entries total (i + 1) es
    pure (s :: rest)

/-- The digest document: date label day, table of contents, sections.
The surrounding DOCUMENT_TEMPLATE markup and the pdf serialization by
weasyprint are presentation, out of scope. -/
structure PdfDoc where
  day : Int
  toc : List String
  sections : List String
deriving DecidableEq

/-- date.today() works in the local civil calendar: with a fixed UTC
offset `tz` (seconds) it is the day number of `now + tz`.  The file
generate_pdf writes is named with this day minus one
(`date.today() - timedelta(days=1)`, then isoformat). -/
def pdf_day (nowRender tz : Int) : Int :=
  (nowRender + tz) / 86400 - 1

/-- The UTC calendar day covered by the discovery window (the day of
its start timestamp). -/
def discovery_day (nowDiscovery : Int) : Int :=
  (yesterday_window nowDiscovery).1 / 86400

/-- generate_pdf, lines 619-653: builds the toc and the ranked
sections, and names the output from the local yesterday.  The single
write_pdf call produces one file at that name, replacing any previous
one. -/
def generate_pdf (nowRender tz : Int) (entries : List Entry) : Except Unit PdfDoc :=
  (render_entries entries.length 0 entries).map (fun sections =>
    { day := pdf_day nowRender tz
      toc := (entries.enumFrom 1).map (fun p => toc_entry p.1 p.2.1)
      sections := sections })

/-!
## Main (lines 661-700)

The per-post article choice of lines 679-687, then fetch_top_comments
per post; any exception escaping those calls hits the catch-all of
line 698 and the process exits 1.  An empty hits array makes
find_top_posts_yesterday call sys.exit(0), which the except Exception
clause does not intercept.
-/

/-- Lines 679-687: article = None unless the post has a truthy url. -/
def main_article (articleOf : String → Option Article) (post : Post) : Option Article :=
  match post.url with
  | some u => if u ≠ "" then articleOf u else none
  | none => none

/-- The entry list built by the main loop; an uncaught exception in
fetch_top_comments aborts the construction. -/
def build_entries (articleOf : String → Option Article)
    (storyOf : Nat → Option Item) (fetchOf : Nat → Option Item)
    (orderOf : Nat → List Nat) : List Post → Except Unit (List Entry)
  | [] => .ok []
  | p :: ps => do
    let cs ← fetch_top_comments (storyOf p.id) fetchOf (orderOf p.id) MAX_COMMENTS
    let rest ← build_entries articleOf storyOf fetchOf orderOf ps
    pure (((p, main_article articleOf p, cs) : Entry) :: rest)

inductive RunOutcome where
  | exit0
  | exit1
  | artifact (doc : PdfDoc)
deriving DecidableEq

/-- The whole run: empty discovery exits 0 with no artifact; an
exception escaping entry construction or rendering exits 1; otherwise
the pdf document is written. -/
def run_main (nowRender tz : Int) (hits : List Post) (articleOf : String → Option Article)
    (storyOf : Nat → Option Item) (fetchOf : Nat → Option Item)
    (orderOf : Nat → List Nat) : RunOutcome :=
  match hits with
  | [] => .exit0
  | _ :: _ =>
    match build_entries articleOf storyOf fetchOf orderOf (find_top_posts hits MAX_POSTS) with
    | .error _ => .exit1
    | .ok entries =>
      match generate_pdf nowRender tz entries with
      | .error _ => .exit1
      | .ok doc => .artifact doc

/-!
## Concrete inputs used by examples, counterexamples and witnesses
-/

/-- Candidate comment with 3 replies, original position 0. -/
def c3_item0 : Item :=
  { id := some 101, type := some "comment", by_ := some "a0", time := some 0,
    text := some "t0", kids := [11, 12, 13], deleted := false, dead := false }

/-- Candidate comment with 1 reply, original position 1. -/
def c3_item1 : Item :=
  { id := some 102, type := some "comment", by_ := some "a1", time := some 0,
    text := some "t1", kids := [21], deleted := false, dead := false }

/-- Candidate comment with 3 replies, original position 2. -/
def c3_item2 : Item :=
  { id := some 103, type := some "comment", by_ := some "a2", time := some 0,
    text := some "t2", kids := [31, 32, 33], deleted := false, dead := false }

/-- Candidate comment with 0 replies, original position 3. -/
def c3_item3 : Item :=
  { id := some 104, type := some "comment", by_ := some "a3", time := some 0,
    text := some "t3", kids := [], deleted := false, dead := false }

def c3_story : Item :=
  { id := some 99, type := some "story", by_ := some "op", time := some 0,
    text := none, kids := [101, 102, 103, 104], deleted := false, dead := false }

def c3_fetch (n : Nat) : Option Item :=
  if n = 101 then some c3_item0 else if n = 102 then some c3_item1
  else if n = 103 then some c3_item2 else if n = 104 then some c3_item3 else none

/-- A syntactically well-formed comment item whose JSON object has no
id field: it passes the type/deleted/dead filter, and the sort key
then raises KeyError. -/
def c9_noid_comment : Item :=
  { id := none, type := some "comment", by_ := some "x", time := some 0,
    text := some "hi", kids := [], deleted := false, dead := false }

def c9_ok_comment : Item :=
  { id := some 2, type := some "comment", by_ := some "y", time := some 0,
    text := some "yo", kids := [], deleted := false, dead := false }

def c9_story : Item :=
  { id := some 99, type := some "story", by_ := none, time := some 0,
    text := none, kids := [1, 2], deleted := false, dead := false }

def c9_post : Post :=
  { id := 99, title := "t", url := none, story_text := none, points := 1,
    num_comments := 2, author := "a", created_at := "x" }

def c9_fetch (n : Nat) : Option Item :=
  if n = 1 then some c9_noid_comment else if n = 2 then some c9_ok_comment else none

def c9_story_of (n : Nat) : Option Item :=
  if n = 99 then some c9_story else none

def c1_postA : Post :=
  { id := 1, title := "A", url := none, story_text := none, points := 10,
    num_comments := 0, author := "ua", created_at := "d" }

def c1_postB : Post :=
  { id := 2, title := "B", url := none, story_text := none, points := 20,
    num_comments := 0, author := "ub", created_at := "d" }

def c1_posts : List Post := [c1_postA, c1_postB]

def c1_entries : List Entry := [(c1_postA, none, []), (c1_postB, none, [])]

def c1_doc : PdfDoc :=
  (generate_pdf 0 0 c1_entries).toOption.getD { day := 0, toc := [], sections := [] }

/-- Attempt schedule: connection error, then a 500, then a 200. -/
def c5_fail_fail_ok (i : Nat) : Attempt :=
  if i = 0 then .exc else if i = 1 then .resp 500 else .resp 200

/-- Attempt schedule: every attempt is a connection error. -/
def c5_all_fail (_ : Nat) : Attempt := .exc

def c6_post : Post :=
  { id := 3, title := "S", url := none, story_text := some "hello", points := 5,
    num_comments := 1, author := "us", created_at := "d" }

/-- A link post with no self-text (fallback goes to the placeholder). -/
def c6_missing_post : Post :=
  { id := 5, title := "M", url := some "https://m.example/x", story_text := none, points := 3,
    num_comments := 0, author := "um", created_at := "d" }

/-- A comment whose author and body both carry markup. -/
def c10_evil : Item :=
  { id := some 7, type := some "comment", by_ := some "<i>eve</i>", time := some 0,
    text := some "<script>alert(1)</script>", kids := [], deleted := false, dead := false }

/-- A comment with absent author and absent body text. -/
def c10_deleted : Item :=
  { id := some 8, type := some "comment", by_ := none, time := some 0,
    text := none, kids := [5], deleted := false, dead := false }

def c10_post : Post :=
  { id := 4, title := "T<x>", url := none, story_text := some "<b>self & text</b>",
    points := 2, num_comments := 0, author := "au<th>", created_at := "d" }

/-!
## General lemmas about the stable sort and the comparator
-/

theorem insert_le_perm {α : Type} (le : α → α → Bool) (x : α) (l : List α) :
    (insert_le le x l).Perm (x :: l) := by
  induction l with
  | nil => simp [insert_le]
  | cons y ys ih =>
    simp only [insert_le]
    split
    · exact (ih.cons y).trans (List.Perm.swap x y ys)
    · exact List.Perm.refl _

theorem sort_by_foldl_perm {α : Type} (le : α → α → Bool) :
    ∀ (l acc : List α), (l.foldl (fun acc x => insert_le le x acc) acc).Perm (l ++ acc) := by
  intro l
  induction l with
  | nil => intro acc; simp
  | cons x xs ih =>
    intro acc
    have h1 : (xs.foldl (fun acc x => insert_le le x acc) (insert_le le x acc)).Perm
        (xs ++ insert_le le x acc) := ih (insert_le le x acc)
    have h2 : (xs ++ insert_le le x acc).Perm (xs ++ x :: acc) :=
      (insert_le_perm le x acc).append_left xs
    have h3 : (xs ++ x :: acc).Perm (x :: (xs ++ acc)) := List.perm_middle
    simpa using (h1.trans h2).trans h3

theorem sort_by_perm {α : Type} (le : α → α → Bool) (l : List α) :
    (sort_by le l).Perm l := by
  simpa using sort_by_foldl_perm le l []

theorem mem_sort_by {α : Type} {le : α → α → Bool} {x : α} {l : List α} :
    x ∈ sort_by le l → x ∈ l :=
  fun h => (sort_by_perm le l).mem_iff.1 h

theorem insert_le_sorted {α : Type} {le : α → α → Bool}
    (htrans : ∀ a b c, le a b = true → le b c = true → le a c = true)
    (htotal : ∀ a b, le a b = true ∨ le b a = true)
    (x : α) (l : List α) (h : l.Pairwise (fun a b => le a b = true)) :
    (insert_le le x l).Pairwise (fun a b => le a b = true) := by
  induction l with
  | nil => simp [insert_le]
  | cons y ys ih =>
    rcases List.pairwise_cons.1 h with ⟨hy, hys⟩
    simp only [insert_le]
    split
    case isTrue hyx =>
      refine List.pairwise_cons.2 ⟨?_, ih hys⟩
      intro z hz
      rcases List.mem_cons.1 ((List.Perm.mem_iff (insert_le_perm le x ys)).1 hz) with rfl | hzys
      · exact hyx
      · exact hy z hzys
    case isFalse hyx =>
      have hxy : le x y = true := (htotal x y).resolve_right (fun hc => hyx hc)
      refine List.pairwise_cons.2 ⟨?_, h⟩
      intro z hz
      rcases List.mem_cons.1 hz with rfl | hzys
      · exact hxy
      · exact htrans x y z hxy (hy z hzys)

theorem sort_by_sorted {α : Type} {le : α → α → Bool}
    (htrans : ∀ a b c, le a b = true → le b c = true → le a c = true)
    (htotal : ∀ a b, le a b = true ∨ le b a = true) (l : List α) :
    (sort_by le l).Pairwise (fun a b => le a b = true) := by
  suffices h : ∀ (l acc : List α), acc.Pairwise (fun a b => le a b = true) →
      (l.foldl (fun acc x => insert_le le x acc) acc).Pairwise (fun a b => le a b = true) by
    exact h l [] (by simp)
  intro l
  induction l with
  | nil => intro acc hacc; simpa using hacc
  | cons x xs ih =>
    intro acc hacc
    exact ih (insert_le le x acc) (insert_le_sorted htrans htotal x acc hacc)

theorem comment_le_iff (kid_ids : List Nat) (a b : Item) :
    comment_le kid_ids a b = true ↔
      ((comment_key kid_ids a).1 < (comment_key kid_ids b).1
        ∨ ((comment_key kid_ids a).1 = (comment_key kid_ids b).1
            ∧ (comment_key kid_ids a).2 ≤ (comment_key kid_ids b).2)) := by
  simp [comment_le, Bool.or_eq_true, Bool.and_eq_true, decide_eq_true_iff, beq_iff_eq]

theorem comment_le_trans (kid_ids : List Nat) :
    ∀ a b c, comment_le kid_ids a b = true → comment_le kid_ids b c = true →
      comment_le kid_ids a c = true := by
  intro a b c hab hbc
  rw [comment_le_iff] at hab hbc ⊢
  rcases hab with h1 | ⟨h1, h2⟩ <;> rcases hbc with h3 | ⟨h3, h4⟩
  · exact Or.inl (h1.trans h3)
  · exact Or.inl (h3 ▸ h1)
  · exact Or.inl (h1 ▸ h3)
  · exact Or.inr ⟨h1.trans h3, h2.trans h4⟩

theorem comment_le_total (kid_ids : List Nat) :
    ∀ a b, comment_le kid_ids a b = true ∨ comment_le kid_ids b a = true := by
  intro a b
  rw [comment_le_iff, comment_le_iff]
  rcases lt_trichotomy (comment_key kid_ids a).1 (comment_key kid_ids b).1 with h | h | h
  · exact Or.inl (Or.inl h)
  · rcases Nat.le_total (comment_key kid_ids a).2 (comment_key kid_ids b).2 with h2 | h2
    · exact Or.inl (Or.inr ⟨h, h2⟩)
    · exact Or.inr (Or.inr ⟨h.symm, h2⟩)
  · exact Or.inr (Or.inl h)

theorem collect_comments_good (fetch : Nat → Option Item) (order : List Nat) :
    ∀ c ∈ collect_comments fetch order, good_comment c = true := by
  intro c hc
  rcases List.mem_filterMap.1 hc with ⟨cid, -, hm⟩
  cases hf : fetch cid with
  | none => rw [hf] at hm; cases hm
  | some item =>
    simp only [hf] at hm
    by_cases hg : good_comment item = true
    · rw [if_pos hg] at hm
      injection hm with hm
      exact hm ▸ hg
    · rw [if_neg hg] at hm
      cases hm

/-!
## Claim theorems
-/

/-- Claim C2: for every story, upstream reply set, completion order
and limit, fetch_top_comments returns at most `limit` items (in
particular K = 5), and every returned item has type comment and is
neither deleted nor dead. -/
theorem fetch_top_comments_bound_and_filter :
    ∀ (story? : Option Item) (fetch : Nat → Option Item) (order : List Nat) (limit : Nat),
      ((fetch_top_comments story? fetch order limit).toOption.getD []).length ≤ limit
      ∧ ((fetch_top_comments story? fetch order limit).toOption.getD []).all good_comment = true := by
  intro story? fetch order limit
  cases story? with
  | none => simp [fetch_top_comments, Except.toOption]
  | some story =>
    cases hk : story.kids with
    | nil => simp [fetch_top_comments, hk, Except.toOption]
    | cons k ks =>
      simp only [fetch_top_comments, hk]
      by_cases hall : (collect_comments fetch order).all (fun c => c.id.isSome) = true
      · rw [if_pos hall]
        constructor
        · simp [Except.toOption, List.length_take_le]
        · rw [List.all_eq_true]
          intro x hx
          exact collect_comments_good fetch order x
            (mem_sort_by (List.mem_of_mem_take (by simpa [Except.toOption] using hx)))
      · rw [if_neg hall]
        simp [Except.toOption]

/-- Claim C3: the returned comments are ordered by the sort key
(descending own-reply count, ties broken by ascending original
position in the reply id list), and on the candidate set with reply
counts [3,1,3,0] at positions [0,1,2,3] the selected top 2 is the
position-0 candidate followed by the position-2 candidate, for every
one of the 24 fetch completion orders. -/
theorem fetch_top_comments_ranking :
    (∀ (story? : Option Item) (fetch : Nat → Option Item) (order : List Nat) (limit : Nat),
      ((fetch_top_comments story? fetch order limit).toOption.getD []).Pairwise
        (fun a b => comment_le (story_kids story?) a b = true))
    ∧ ((all_orders [101, 102, 103, 104]).all (fun ord =>
        decide ((fetch_top_comments (some c3_story) c3_fetch ord 2).toOption
          = some [c3_item0, c3_item2]))) = true := by
  constructor
  · intro story? fetch order limit
    cases story? with
    | none => simp [fetch_top_comments, Except.toOption]
    | some story =>
      simp only [story_kids]
      cases hk : story.kids with
      | nil => simp [fetch_top_comments, hk, Except.toOption]
      | cons k ks =>
        simp only [fetch_top_comments, hk]
        by_cases hall : (collect_comments fetch order).all (fun c => c.id.isSome) = true
        · rw [if_pos hall]
          have hs := sort_by_sorted (comment_le_trans (k :: ks)) (comment_le_total (k :: ks))
            (collect_comments fetch order)
          simpa [Except.toOption] using List.Pairwise.sublist (List.take_sublist limit _) hs
        · rw [if_neg hall]
          simp [Except.toOption]
  · decide

/-- Claim C4 counterexample: at invocation time 200000 the window is
(86400, 172800), and a story created exactly at the window start
timestamp 86400 is rejected by the query filter, where the claim
says the start is inside the window. -/
theorem discovery_window_start_excluded_cex :
    yesterday_window 200000 = (86400, 172800)
    ∧ query_accepts (yesterday_window 200000).1 (yesterday_window 200000).2 86400 = false
    ∧ query_accepts (yesterday_window 200000).1 (yesterday_window 200000).2 172800 = false :=
  ⟨rfl, rfl, rfl⟩

/-- Claim C4 amended: the window bounds are midnight minus one day and
midnight, but the numericFilters comparison is strict on both sides,
so the queried set is the open interval: a story at the start
timestamp is outside, and one at the end timestamp is outside. -/
theorem discovery_window_strictly_open :
    ∀ now ts : Int,
      (yesterday_window now).1 = now - now % 86400 - 86400
      ∧ (yesterday_window now).2 = now - now % 86400
      ∧ (query_accepts (yesterday_window now).1 (yesterday_window now).2 ts = true
          ↔ ((yesterday_window now).1 < ts ∧ ts < (yesterday_window now).2))
      ∧ query_accepts (yesterday_window now).1 (yesterday_window now).2 (yesterday_window now).1 = false
      ∧ query_accepts (yesterday_window now).1 (yesterday_window now).2 (yesterday_window now).2 = false := by
  intro now ts
  refine ⟨rfl, rfl, ?_, ?_, ?_⟩ <;> simp [query_accepts, yesterday_window]

/-- Claim C5 counterexample: with every attempt answering 304 Not
Modified, the wrapper returns that response on the first attempt,
although no attempt has a 2xx status — raise_for_status only raises
for 4xx/5xx, so non-2xx is not equivalent to transport failure. -/
theorem retry_returns_non_2xx_cex :
    request_with_retry (fun _ => .resp 304) 3 = .ok (some 304)
    ∧ ¬ (200 ≤ 304 ∧ 304 < 300) :=
  ⟨rfl, by omega⟩

/-- Claim C5 amended: the wrapper performs up to 3 attempts and
returns a response exactly when some attempt yields a status outside
[400, 600) (the raise_for_status acceptance, which includes 1xx/3xx,
not only 2xx); connection errors, timeouts and 4xx/5xx statuses are
retried identically, the failure of the final attempt propagates,
three consecutive failures propagate, and two failures followed by an
accepted response return that response. -/
theorem retry_success_iff_attempt_accepted :
    ∀ f : Nat → Attempt,
      ((∃ s, request_with_retry f 3 = .ok (some s))
        ↔ (attempt_ok (f 0) || attempt_ok (f 1) || attempt_ok (f 2)) = true)
      ∧ (attempt_ok (f 0) = false → attempt_ok (f 1) = false → attempt_ok (f 2) = false →
          (request_with_retry f 3).isOk = false)
      ∧ (∀ s, attempt_ok (f 0) = false → attempt_ok (f 1) = false → f 2 = .resp s →
          raises_for_status s = false → request_with_retry f 3 = .ok (some s)) := by
  intro f
  cases h0 : f 0 with
  | resp s0 =>
    by_cases hr0 : raises_for_status s0 = true
    · cases h1 : f 1 with
      | resp s1 =>
        by_cases hr1 : raises_for_status s1 = true
        · cases h2 : f 2 with
          | resp s2 =>
            by_cases hr2 : raises_for_status s2 = true <;>
              simp_all [request_with_retry, request_attempts, attempt_ok, Except.isOk, Except.toBool]
          | exc => simp_all [request_with_retry, request_attempts, attempt_ok, Except.isOk, Except.toBool]
        · simp_all [request_with_retry, request_attempts, attempt_ok, Except.isOk, Except.toBool]
      | exc =>
        cases h2 : f 2 with
        | resp s2 =>
          by_cases hr2 : raises_for_status s2 = true <;>
            simp_all [request_with_retry, request_attempts, attempt_ok, Except.isOk, Except.toBool]
        | exc => simp_all [request_with_retry, request_attempts, attempt_ok, Except.isOk, Except.toBool]
    · simp_all [request_with_retry, request_attempts, attempt_ok, Except.isOk, Except.toBool]
  | exc =>
    cases h1 : f 1 with
    | resp s1 =>
      by_cases hr1 : raises_for_status s1 = true
      · cases h2 : f 2 with
        | resp s2 =>
          by_cases hr2 : raises_for_status s2 = true <;>
            simp_all [request_with_retry, request_attempts, attempt_ok, Except.isOk, Except.toBool]
        | exc => simp_all [request_with_retry, request_attempts, attempt_ok, Except.isOk, Except.toBool]
      · simp_all [request_with_retry, request_attempts, attempt_ok, Except.isOk, Except.toBool]
    | exc =>
      cases h2 : f 2 with
      | resp s2 =>
        by_cases hr2 : raises_for_status s2 = true <;>
          simp_all [request_with_retry, request_attempts, attempt_ok, Except.isOk, Except.toBool]
      | exc => simp_all [request_with_retry, request_attempts, attempt_ok, Except.isOk, Except.toBool]

/-- Witness for the amended C5 theorem at concrete schedules: three
connection errors propagate a failure, and error, 500, 200 returns
the 200 response. -/
theorem retry_success_iff_attempt_accepted_witness :
    (request_with_retry c5_all_fail 3).isOk = false
    ∧ request_with_retry c5_fail_fail_ok 3 = .ok (some 200) :=
  ⟨(retry_success_iff_attempt_accepted c5_all_fail).2.1 rfl rfl rfl,
   (retry_success_iff_attempt_accepted c5_fail_fail_ok).2.2 200 rfl rfl rfl rfl⟩

/-- Claim C6, code evidence: article extraction CAN raise out of the
pipeline.  The absent cases of the claim do hold — the URL-absent,
fetch-failure and readability-failure paths all return None — and the
fallback choice is as claimed; but the img-src rewrite loop sits
outside both exception handlers, and urljoin raises ValueError on a
network-path src with an unmatched bracket, so a fetched page whose
readability summary contains such an img makes fetch_article raise,
which the catch-all of line 698 turns into exit 1, aborting the
run. -/
theorem fetch_article_raises_on_unparsable_src :
    urljoin "https://ex.com/post" "//[x" = .error ()
    ∧ rewrite_img_src "https://ex.com/post" (some "//[x") = .error ()
    ∧ fetch_article (some "https://ex.com/post") (fun _ => .ok "<page>")
        (fun _ => .ok [{ tag := "img", src := some "//[x", text := "" }]) = .error ()
    ∧ fetch_article none (fun _ => .ok "<page>") (fun _ => .ok []) = .ok none
    ∧ fetch_article (some "https://ex.com/post") (fun _ => .error ()) (fun _ => .ok []) = .ok none
    ∧ fetch_article (some "https://ex.com/post") (fun _ => .ok "<page>") (fun _ => .error ())
        = .ok none
    ∧ article_section_of c6_post none = "<div class=\"content\">hello</div>"
    ∧ article_section_of c6_missing_post none
        = "<div class=\"unavailable\">Article content could not be retrieved.</div>" :=
  ⟨rfl, rfl, rfl, rfl, rfl, rfl, rfl, rfl⟩

/-- Claim C7 counterexample: an img with an empty src attribute is not
an absolute HTTP(S) or data URI, yet the code leaves it unchanged
(the Python truthiness guard `if src and ...` skips it), rather than
resolving it against the page URL as the claim requires for every
non-absolute src. -/
theorem img_src_empty_not_resolved_cex :
    rewrite_img_src "https://ex.com/post" (some "") = .ok (some "")
    ∧ str_starts "" "http://" = false
    ∧ str_starts "" "https://" = false
    ∧ str_starts "" "data:" = false
    ∧ urljoin "https://ex.com/post" "" = .ok "https://ex.com/post" :=
  ⟨rfl, rfl, rfl, rfl, rfl⟩

/-- Claim C7 amended: every nonempty img src that does not start with
http://, https:// or data: is handed to urllib.parse.urljoin against
the page URL — yielding the stdlib resolution (absolute-path,
relative with dot segments, network-path and query-only references
all resolve as urllib does), except that a src on which urljoin
raises propagates the ValueError out of extraction; srcs with those
three prefixes, empty srcs and absent srcs are left unchanged.  In
particular /img/a.png on https://ex.com/post becomes
https://ex.com/img/a.png, ../c on https://ex.com/a/b becomes
https://ex.com/c, ?id=3 on https://ex.com/post becomes
https://ex.com/post?id=3, while absolute HTTP(S) and data URIs are
untouched and //[x raises. -/
theorem img_src_rewrite_amended :
    (∀ (page src : String),
      (str_starts src "http://" || str_starts src "https://" || str_starts src "data:") = true →
      rewrite_img_src page (some src) = .ok (some src))
    ∧ (∀ (page src : String), src ≠ "" →
        (str_starts src "http://" || str_starts src "https://" || str_starts src "data:") = false →
        rewrite_img_src page (some src) = (urljoin page src).map some)
    ∧ (∀ page : String, rewrite_img_src page (some "") = .ok (some ""))
    ∧ (∀ page : String, rewrite_img_src page none = .ok none)
    ∧ rewrite_img_src "https://ex.com/post" (some "/img/a.png") = .ok (some "https://ex.com/img/a.png")
    ∧ rewrite_img_src "https://ex.com/a/b" (some "../c") = .ok (some "https://ex.com/c")
    ∧ rewrite_img_src "https://ex.com/post" (some "?id=3") = .ok (some "https://ex.com/post?id=3")
    ∧ rewrite_img_src "https://ex.com/post" (some "//cdn.x.com/i.png")
        = .ok (some "https://cdn.x.com/i.png")
    ∧ rewrite_img_src "https://ex.com/post/sub" (some "b/../c.png")
        = .ok (some "https://ex.com/post/c.png")
    ∧ rewrite_img_src "https://ex.com/post" (some "https://x.com/a.png") = .ok (some "https://x.com/a.png")
    ∧ rewrite_img_src "https://ex.com/post" (some "data:image/png;base64,iVBORw0KGgo=")
        = .ok (some "data:image/png;base64,iVBORw0KGgo=")
    ∧ rewrite_img_src "https://ex.com/post" (some "//[x") = .error () := by
  refine ⟨?_, ?_, fun page => rfl, fun page => rfl, rfl, rfl, rfl, rfl, rfl, rfl, rfl, rfl⟩
  · intro page src hpre
    simp [rewrite_img_src, hpre]
  · intro page src hne hpre
    simp [rewrite_img_src, hne, hpre]

/-- Witness for the amended C7 theorem at concrete srcs: an absolute
https src is left unchanged, and a nonempty relative src is resolved
with urljoin. -/
theorem img_src_rewrite_amended_witness :
    rewrite_img_src "https://ex.com/post" (some "https://x.com/a.png") = .ok (some "https://x.com/a.png")
    ∧ rewrite_img_src "https://ex.com/post" (some "/img/a.png")
        = (urljoin "https://ex.com/post" "/img/a.png").map some :=
  ⟨img_src_rewrite_amended.1 "https://ex.com/post" "https://x.com/a.png" rfl,
   img_src_rewrite_amended.2.1 "https://ex.com/post" "/img/a.png" (by decide) rfl⟩

/-- Claim C8 counterexample: at invocation epoch 200000 with local
offset UTC-8 (tz = -28800 seconds), generate_pdf names the file by
local-calendar day 0 while the discovery window covers UTC day 1 —
the filename date does not equal the discovery window day at this
invocation time, and the two functions disagree. -/
theorem pdf_filename_day_mismatch_cex :
    generate_pdf 200000 (-28800) [] = .ok { day := 0, toc := [], sections := [] }
    ∧ pdf_day 200000 (-28800) = 0
    ∧ discovery_day 200000 = 1 :=
  ⟨rfl, rfl, rfl⟩

/-- Claim C8 amended: the single output file is named by the prior
local calendar day at render time (date.today() minus one day), which
equals the UTC day covered by the discovery window exactly when the
local calendar day equals the UTC calendar day of the invocation
moment. -/
theorem pdf_named_by_local_yesterday :
    (∀ (nowRender tz : Int) (entries : List Entry) (doc : PdfDoc),
      generate_pdf nowRender tz entries = .ok doc → doc.day = pdf_day nowRender tz)
    ∧ (∀ now tz : Int,
        pdf_day now tz = discovery_day now ↔ (now + tz) / 86400 = now / 86400) := by
  constructor
  · intro nowRender tz entries doc h
    unfold generate_pdf at h
    cases hr : render_entries entries.length 0 entries with
    | error e => rw [hr] at h; cases h
    | ok secs =>
      rw [hr] at h
      injection h with h
      rw [← h]
  · intro now tz
    show (now + tz) / 86400 - 1 = (now - now % 86400 - 86400) / 86400 ↔ _
    omega

/-- Witness for the amended C8 theorem: at epoch 0 with offset 0, the
document day is pdf_day 0 0 (= -1, the day before the epoch). -/
theorem pdf_named_by_local_yesterday_witness :
    ((generate_pdf 0 0 []).toOption.getD { day := 5, toc := [], sections := [] }).day
      = pdf_day 0 0 :=
  pdf_named_by_local_yesterday.1 0 0 [] _ rfl

/-- Claim C9, code evidence: an item-lookup response that is a JSON
object with type comment but no id field passes the comment filter,
then the sort key read c["id"] raises KeyError inside
fetch_top_comments; nothing between there and the top-level catch-all
handles it, so the run exits 1 and no artifact is rendered — where
the claim requires the run to continue with that post degraded. -/
theorem malformed_comment_item_aborts_run :
    good_comment c9_noid_comment = true
    ∧ c9_noid_comment.id = none
    ∧ fetch_top_comments (some c9_story) c9_fetch [1, 2] 5 = .error ()
    ∧ run_main 0 0 [c9_post] (fun _ => none) c9_story_of c9_fetch (fun _ => [1, 2]) = .exit1 :=
  ⟨rfl, rfl, rfl, rfl⟩

theorem build_entries_spec :
    ∀ (articleOf : String → Option Article) (storyOf fetchOf : Nat → Option Item)
      (orderOf : Nat → List Nat) (posts : List Post) (entries : List Entry),
      build_entries articleOf storyOf fetchOf orderOf posts = .ok entries →
      entries.length = posts.length
      ∧ ∀ (i : Nat) (p : Post), posts[i]? = some p →
          ∃ cs, fetch_top_comments (storyOf p.id) fetchOf (orderOf p.id) MAX_COMMENTS = .ok cs
            ∧ entries[i]? = some ((p, main_article articleOf p, cs) : Entry) := by
  intro articleOf storyOf fetchOf orderOf posts
  induction posts with
  | nil =>
    intro entries h
    simp only [build_entries] at h
    injection h with h
    subst h
    simp
  | cons p ps ih =>
    intro entries h
    simp only [build_entries] at h
    cases hc : fetch_top_comments (storyOf p.id) fetchOf (orderOf p.id) MAX_COMMENTS with
    | error e => rw [hc] at h; simp [Bind.bind, Except.bind] at h
    | ok cs =>
      rw [hc] at h
      cases hr : build_entries articleOf storyOf fetchOf orderOf ps with
      | error e => rw [hr] at h; simp [Bind.bind, Except.bind] at h
      | ok rest =>
        rw [hr] at h
        simp only [Bind.bind, Except.bind, pure, Except.pure] at h
        injection h with h
        subst h
        obtain ⟨hlen, hidx⟩ := ih rest hr
        refine ⟨by simp [hlen], ?_⟩
        intro i q hq
        cases i with
        | zero =>
          simp only [List.getElem?_cons_zero] at hq
          injection hq with hq
          subst hq
          exact ⟨cs, hc, by simp⟩
        | succ i =>
          simp only [List.getElem?_cons_succ] at hq ⊢
          exact hidx i q hq

theorem render_entries_spec :
    ∀ (total : Nat) (es : List Entry) (i : Nat) (secs : List String),
      render_entries total i es = .ok secs →
      secs.length = es.length
      ∧ ∀ (j : Nat) (e : Entry), es[j]? = some e →
          ∃ s, secs[j]? = some s
            ∧ render_section e.1 e.2.1 e.2.2 (i + j + 1) total = .ok s := by
  intro total es
  induction es with
  | nil =>
    intro i secs h
    simp only [render_entries] at h
    injection h with h
    subst h
    simp
  | cons e es ih =>
    intro i secs h
    simp only [render_entries] at h
    cases hs : render_section e.1 e.2.1 e.2.2 (i + 1) total with
    | error err => rw [hs] at h; simp [Bind.bind, Except.bind] at h
    | ok s =>
      rw [hs] at h
      cases hr : render_entries total (i + 1) es with
      | error err => rw [hr] at h; simp [Bind.bind, Except.bind] at h
      | ok rest =>
        rw [hr] at h
        simp only [Bind.bind, Except.bind, pure, Except.pure] at h
        injection h with h
        subst h
        obtain ⟨hlen, hidx⟩ := ih (i + 1) rest hr
        refine ⟨by simp [hlen], ?_⟩
        intro j q hq
        cases j with
        | zero =>
          simp only [List.getElem?_cons_zero] at hq
          injection hq with hq
          subst hq
          exact ⟨s, by simp, hs⟩
        | succ j =>
          simp only [List.getElem?_cons_succ] at hq ⊢
          obtain ⟨s2, hs2, hrend⟩ := hidx j q hq
          refine ⟨s2, hs2, ?_⟩
          have harith : i + 1 + j + 1 = i + (j + 1) + 1 := by omega
          rw [← harith]
          exact hrend

/-- Claim C1: whenever the per-post entry construction of main and
the rendering of generate_pdf both succeed on a discovery result
`posts`, the artifact has exactly posts.length sections, and the
section at index i is rendered from the post at index i with rank
i + 1 — for every assignment of per-post article results, story
lookups, item lookups and fetch completion orders, so discovery
order is never changed by fetch completion order. -/
theorem digest_sections_follow_discovery_order :
    ∀ (articleOf : String → Option Article) (storyOf fetchOf : Nat → Option Item)
      (orderOf : Nat → List Nat) (posts : List Post) (entries : List Entry)
      (nowR tz : Int) (doc : PdfDoc),
      build_entries articleOf storyOf fetchOf orderOf posts = .ok entries →
      generate_pdf nowR tz entries = .ok doc →
      doc.sections.length = posts.length
      ∧ ∀ (i : Nat) (p : Post), posts[i]? = some p →
          ∃ cs s,
            fetch_top_comments (storyOf p.id) fetchOf (orderOf p.id) MAX_COMMENTS = .ok cs
            ∧ doc.sections[i]? = some s
            ∧ render_section p (main_article articleOf p) cs (i + 1) posts.length = .ok s := by
  intro articleOf storyOf fetchOf orderOf posts entries nowR tz doc hb hg
  obtain ⟨hlen, hidx⟩ := build_entries_spec articleOf storyOf fetchOf orderOf posts entries hb
  unfold generate_pdf at hg
  cases hr : render_entries entries.length 0 entries with
  | error e => rw [hr] at hg; cases hg
  | ok secs =>
    rw [hr] at hg
    injection hg with hg
    obtain ⟨hslen, hsidx⟩ := render_entries_spec entries.length entries 0 secs hr
    have hdocs : doc.sections = secs := by rw [← hg]
    constructor
    · rw [hdocs, hslen, hlen]
    · intro i p hp
      obtain ⟨cs, hcs, hent⟩ := hidx i p hp
      obtain ⟨s, hsi, hrend⟩ := hsidx i _ hent
      rw [hlen] at hrend
      refine ⟨cs, s, hcs, by rw [hdocs]; exact hsi, ?_⟩
      simpa using hrend

/-- Witness for the C1 theorem: a concrete two-post run renders a
document with exactly two sections. -/
theorem digest_sections_follow_discovery_order_witness :
    c1_doc.sections.length = c1_posts.length :=
  (digest_sections_follow_discovery_order (fun _ => none) (fun _ => none) (fun _ => none)
    (fun _ => []) c1_posts c1_entries 0 0 c1_doc rfl rfl).1

/-- Claim C10: the rendered section escapes the post title, the post
author and each comment author (html.escape), but inserts the
self-text fallback body and each comment body verbatim; the only
substitution on a comment body is the em-deleted placeholder when the
text field is absent.  The concrete conjuncts evaluate this on
markup-bearing inputs: the author markup is entity-escaped while the
script tag in the body and the markup in the self-text survive
unchanged. -/
theorem render_escapes_meta_not_bodies :
    (∀ (c : Item) (t : Nat), c.time = some t →
      render_comment c = .ok (comment_fmt (escape (c.by_.getD "[unknown]")) (format_time t)
        c.kids.length (c.text.getD "<em>[deleted]</em>")))
    ∧ (∀ (post : Post) (article : Option Article) (comments : List Item) (rank total : Nat)
        (out : String), render_section post article comments rank total = .ok out →
        ∃ blocks, comments.mapM render_comment = .ok blocks
          ∧ out = section_fmt rank total (escape post.title) post.points (escape post.author)
              post.num_comments post.id (url_link_of post) (article_section_of post article)
              comments.length (String.intercalate "\n" blocks))
    ∧ escape "<i>eve</i>" = "&lt;i&gt;eve&lt;/i&gt;"
    ∧ render_comment c10_evil
        = .ok (comment_fmt "&lt;i&gt;eve&lt;/i&gt;" (format_time 0) 0 "<script>alert(1)</script>")
    ∧ render_comment c10_deleted
        = .ok (comment_fmt "[unknown]" (format_time 0) 1 "<em>[deleted]</em>")
    ∧ article_section_of c10_post none = "<div class=\"content\"><b>self & text</b></div>" := by
  refine ⟨?_, ?_, rfl, rfl, rfl, rfl⟩
  · intro c t ht
    simp [render_comment, ht]
  · intro post article comments rank total out h
    unfold render_section at h
    cases hm : comments.mapM render_comment with
    | error e => rw [hm] at h; cases h
    | ok blocks =>
      rw [hm] at h
      simp only [Except.map] at h
      injection h with h
      exact ⟨blocks, rfl, h.symm⟩

/-- Witness for the C10 theorem at a concrete markup-bearing comment
and a concrete section render. -/
theorem render_escapes_meta_not_bodies_witness :
    render_comment c10_evil = .ok (comment_fmt (escape (c10_evil.by_.getD "[unknown]"))
      (format_time 0) c10_evil.kids.length (c10_evil.text.getD "<em>[deleted]</em>"))
    ∧ (∃ blocks, ([c10_evil].mapM render_comment) = .ok blocks
        ∧ (render_section c10_post none [c10_evil] 1 1).toOption.getD ""
          = section_fmt 1 1 (escape c10_post.title) c10_post.points (escape c10_post.author)
              c10_post.num_comments c10_post.id (url_link_of c10_post)
              (article_section_of c10_post none) 1 (String.intercalate "\n" blocks)) :=
  ⟨render_escapes_meta_not_bodies.1 c10_evil 0 rfl,
   render_escapes_meta_not_bodies.2.1 c10_post none [c10_evil] 1 1 _ rfl⟩

end HNDigest
